import Mathlib

/-
Verification development for the Benin least-cost electrification model
(benin_least_cost/config.py, demand.py, lcoe.py).

The pipeline is a per-row (per-settlement) transform over a pandas table:
every derived column is computed row-wise from the input attributes, so we
embed one settlement row as a structure and the two stages
(run_demand_model, run_lcoe_model) as functions on it.

Modelling conventions:
- Python floats are modelled as exact rationals.
- A column that may be absent from the table is an Option field
  (none meaning the whole column is missing).
- The four columns on which the code calls DataFrame.get with a scalar
  default and then Series.fillna (num_health_facilities,
  num_education_facilities, dist_to_substations,
  distance_to_existing_transmission_lines), and the hub-distance column
  (whose get default is a Series, then fillna(30)), are Option (Option Rat):
  the outer none means the column is absent, some none means the cell is
  NaN, some (some v) means the cell holds v.  pandas DataFrame.get returns
  the scalar default when the column is absent, and calling .fillna on that
  scalar raises AttributeError; getFillna below reproduces exactly that.
- Cells of the remaining columns are assumed non-NaN, per the input
  validation contract of the surrounding pipeline.
-/

/-- A cell of a column accessed through DataFrame.get followed by fillna:
outer none = column absent from the table, some none = NaN cell,
some (some v) = value. -/
abbrev OptCell := Option (Option ℚ)

/-- One settlement row of the input table (attributes consumed by the two
stages).  lat is the centroid latitude (row.geometry.centroid.y). -/
structure InputRow where
  population : ℚ
  lat : ℚ
  num_buildings : Option ℚ
  mean_rwi : Option ℚ
  has_nightlight : Option ℚ
  dist_main_road_km : Option ℚ
  dist_nearest_hub_km : OptCell
  dist_lake_river_km : Option ℚ
  num_health_facilities : OptCell
  num_education_facilities : OptCell
  dist_to_substations : OptCell
  dist_to_existing_transmission_lines : OptCell
  main_road_access : Option ℚ

-- ---------- config.py constants ----------

def PLANNING_HORIZON : ℕ := 15
def POP_GROWTH : ℚ := 27/1000
def WEALTH_GROWTH : ℚ := 15/1000
def DISCOUNT_RATE : ℚ := 8/100

/-- TIER_KWH table (config.py).  The pipeline only ever looks up keys 1-3;
pandas map would give NaN on a missing key, which is unreachable here. -/
def TIER_KWH (t : ℕ) : ℚ :=
  if t = 1 then 35 else if t = 2 then 220 else if t = 3 then 850
  else if t = 4 then 2200 else if t = 5 then 3500 else 0

/-- TIER_LF table (config.py). -/
def TIER_LF (t : ℕ) : ℚ :=
  if t = 1 then 18/100 else if t = 2 then 20/100 else if t = 3 then 25/100
  else if t = 4 then 30/100 else if t = 5 then 35/100 else 0

def LOADS_health : ℚ := 4000
def LOADS_education : ℚ := 1500
def LOADS_sme : ℚ := 600
def LOADS_freezer : ℚ := 2500
def LOADS_irrigation : ℚ := 3500
def LOADS_mill : ℚ := 4500
def LOADS_dryer : ℚ := 6000

def TARGET_UPTAKE_2040 : ℚ := 85/100

def MV_COST_KM : ℚ := 14000
def LV_COST_KM : ℚ := 5500
def SUBSTATION_COST : ℚ := 500000
def TRANSFORMER_COST : ℚ := 8000
def CONN_GRID : ℚ := 150
def GRID_LOSS : ℚ := 18/100
def GRID_PRICE : ℚ := 1/10

def PV_COST : ℚ := 700
def BATT_COST : ℚ := 300
def INV_COST : ℚ := 180
def CONN_MG : ℚ := 100
def CF_SOLAR : ℚ := 18/100
def BATT_LIFE : ℕ := 7

/-- SHS_COST table (config.py). -/
def SHS_COST (t : ℕ) : ℚ :=
  if t = 1 then 80 else if t = 2 then 250 else if t = 3 then 600 else 0

/-- SHS_CAP table (config.py). -/
def SHS_CAP (t : ℕ) : ℚ :=
  if t = 1 then 35 else if t = 2 then 150 else if t = 3 then 350 else 0

def MAX_TIER_SHS : ℕ := 3

-- ---------- pandas access semantics ----------

/-- DataFrame.get with a scalar default, followed by Series.fillna(default):
when the column is absent, get returns the scalar default itself and the
fillna attribute access raises; when the cell is NaN, fillna substitutes the
default; otherwise the value is used. -/
def getFillna (c : OptCell) (d : ℚ) : Except String ℚ :=
  match c with
  | none => Except.error "AttributeError: int object has no attribute fillna"
  | some none => Except.ok d
  | some (some v) => Except.ok v

/-- DataFrame.get with a Series default (demand.py line 77), followed by
fillna(30): an absent column or a NaN cell both become 30. -/
def getSeriesFillna (c : OptCell) (d : ℚ) : ℚ :=
  match c with
  | some (some v) => v
  | _ => d

/-- Python int() applied to a float: truncation toward zero. -/
def pyInt (q : ℚ) : ℤ := if 0 ≤ q then ⌊q⌋ else ⌈q⌉

-- ---------- demand.py ----------

/-- demand.py line 52: is_urban = (population greater than 5000) or
(num_buildings greater than 500); an absent num_buildings column makes
get return scalar 0, so the second disjunct is False. -/
def is_urbanOf (r : InputRow) : Bool :=
  decide (5000 < r.population) || decide (500 < r.num_buildings.getD 0)

/-- demand.py line 53: household size 4.3 urban, 5.2 rural. -/
def hh_sizeOf (r : InputRow) : ℚ :=
  if is_urbanOf r then 43/10 else 52/10

/-- demand.py lines 54-56: households = ceil(population / hh_size),
clipped below at 1, cast to int. -/
def householdsOf (r : InputRow) : ℕ :=
  (max 1 ⌈r.population / hh_sizeOf r⌉).toNat

/-- demand.py line 60: baseline tier from the wealth proxy
(np.select on rwi cut points, rwi defaulting to scalar 0 when the
mean_rwi column is absent). -/
def tierBase (rwi : ℚ) : ℕ :=
  if rwi < -(3/10) then 1 else if rwi < 4/10 then 2 else 3

/-- demand.py lines 62-65: nightlight promotion, applied only when the
has_nightlight column is present. -/
def nightlightAdjust (r : InputRow) (t : ℕ) : ℕ :=
  match r.has_nightlight with
  | some nl => if 0 < nl ∧ t < 2 then 2 else t
  | none => t

/-- demand.py lines 68-70: remoteness cap, applied only when the
dist_main_road_km column is present; rewrites tier to 3 where the road
distance exceeds 20 and the tier exceeds 3. -/
def roadCapAdjust (r : InputRow) (t : ℕ) : ℕ :=
  match r.dist_main_road_km with
  | some d => if 20 < d ∧ 3 < t then 3 else t
  | none => t

/-- demand.py lines 58-70: full tier assignment. -/
def tierOf (r : InputRow) : ℕ :=
  roadCapAdjust r (nightlightAdjust r (tierBase (r.mean_rwi.getD 0)))

/-- demand.py lines 77-80: hub-distance gravity multiplier,
np.clip(1 + 20/(dist_hub + 1), 1, 2.5). -/
def gravityOf (r : InputRow) : ℚ :=
  min (max (1 + 20 / (getSeriesFillna r.dist_nearest_hub_km 30 + 1)) 1) (5/2)

/-- demand.py line 82: SME divisor, 50 urban and 100 rural. -/
def base_smeOf (r : InputRow) : ℚ :=
  if is_urbanOf r then 50 else 100

/-- demand.py line 83: building count, defaulting to the households column
when num_buildings is absent. -/
def bcountOf (r : InputRow) : ℚ :=
  r.num_buildings.getD (householdsOf r)

/-- demand.py line 83: sme = (buildings / base_sme) * gravity. -/
def smeOf (r : InputRow) : ℚ :=
  bcountOf r / base_smeOf r * gravityOf r

/-- demand.py lines 87-91: cold-chain load added for settlements within
3 km of a lake or river with population above 200 (the step only runs when
that column is present in the table). -/
def fishAddOf (r : InputRow) : ℚ :=
  match r.dist_lake_river_km with
  | some dlr =>
      if dlr < 3 ∧ 200 < r.population then
        (⌈(householdsOf r : ℚ) / 100⌉ : ℚ) * LOADS_freezer
      else 0
  | none => 0

/-- demand.py lines 84-91: commercial demand = ceil(sme) * 600, then the
cold-chain addition. -/
def dem_commOf (r : InputRow) : ℚ :=
  (⌈smeOf r⌉ : ℚ) * LOADS_sme + fishAddOf r

/-- demand.py lines 15-40: estimate_agri_loads applied to a row that
already carries the computed is_urban column.  The irrigation rule reads
dist_lake_river_km through row.get with default 99. -/
def estimate_agri_loads (r : InputRow) : ℚ :=
  (if is_urbanOf r = false ∧ 500 < r.population then
     ((max 1 (pyInt (r.population / 1500)) : ℤ) : ℚ) * LOADS_mill
   else 0) +
  (if r.dist_lake_river_km.getD 99 < 3 ∧ 300 < r.population then
     ((max 1 (pyInt (r.population / 800)) : ℤ) : ℚ) * LOADS_irrigation
   else 0) +
  (if 8 < r.lat ∧ is_urbanOf r = false ∧ 400 < r.population then
     ((max 1 (pyInt (r.population / 2000)) : ℤ) : ℚ) * LOADS_dryer
   else 0)

/-- demand.py line 96: uptake fraction, 0.95 urban, TARGET_UPTAKE_2040 rural. -/
def uptakeOf (r : InputRow) : ℚ :=
  if is_urbanOf r then 19/20 else TARGET_UPTAKE_2040

/-- demand.py line 97: residential demand. -/
def dem_resOf (r : InputRow) : ℚ :=
  (householdsOf r : ℚ) * TIER_KWH (tierOf r) * uptakeOf r

/-- demand.py lines 99-102: public demand; both facility columns go through
DataFrame.get with scalar default 0 and then fillna(0), so an absent column
raises (health first, matching evaluation order). -/
def pubDemandOf (r : InputRow) : Except String ℚ :=
  match getFillna r.num_health_facilities 0, getFillna r.num_education_facilities 0 with
  | Except.ok h, Except.ok e => Except.ok (h * LOADS_health + e * LOADS_education)
  | Except.error e, _ => Except.error e
  | Except.ok _, Except.error e => Except.error e

/-- demand.py line 105: compound growth factor to the planning horizon. -/
def growthQ : ℚ :=
  (1 + ((1 + POP_GROWTH) * (1 + WEALTH_GROWTH) - 1)) ^ PLANNING_HORIZON

/-- demand.py line 104: year-0 total demand given the public component. -/
def total_yr0Of (r : InputRow) (dp : ℚ) : ℚ :=
  dem_resOf r + dem_commOf r + estimate_agri_loads r + dp

/-- demand.py line 106: projected demand at the horizon. -/
def projected_demandOf (r : InputRow) (dp : ℚ) : ℚ :=
  total_yr0Of r dp * growthQ

/-- demand.py line 109: design residential demand at 100 percent uptake. -/
def design_resOf (r : InputRow) : ℚ :=
  (householdsOf r : ℚ) * TIER_KWH (tierOf r)

/-- demand.py line 110: design total, projected with the same growth. -/
def design_totalOf (r : InputRow) (dp : ℚ) : ℚ :=
  (design_resOf r + dem_commOf r + estimate_agri_loads r + dp) * growthQ

/-- demand.py line 111: design peak load. -/
def projected_peakOf (r : InputRow) (dp : ℚ) : ℚ :=
  design_totalOf r dp / 8760 / TIER_LF (tierOf r)

/-- The columns written by run_demand_model that later stages consume. -/
structure DemandOut where
  is_urban : Bool
  hh_size : ℚ
  households : ℕ
  tier : ℕ
  kwh_hh : ℚ
  lf : ℚ
  dem_comm : ℚ
  dem_res : ℚ
  dem_agri : ℚ
  dem_pub : ℚ
  projected_demand : ℚ
  projected_peak : ℚ
deriving Repr

/-- The pure part of run_demand_model: every derived column, given the
successfully computed public demand dp. -/
def demandCore (r : InputRow) (dp : ℚ) : DemandOut :=
  { is_urban := is_urbanOf r
    hh_size := hh_sizeOf r
    households := householdsOf r
    tier := tierOf r
    kwh_hh := TIER_KWH (tierOf r)
    lf := TIER_LF (tierOf r)
    dem_comm := dem_commOf r
    dem_res := dem_resOf r
    dem_agri := estimate_agri_loads r
    dem_pub := dp
    projected_demand := projected_demandOf r dp
    projected_peak := projected_peakOf r dp }

/-- demand.py run_demand_model on one row.  The only fallible step is the
public-demand line (the facility columns fillna slip); everything else is
total. -/
def run_demand_model (r : InputRow) : Except String DemandOut :=
  match pubDemandOf r with
  | Except.ok dp => Except.ok (demandCore r dp)
  | Except.error e => Except.error e

-- ---------- lcoe.py ----------

/-- lcoe.py lines 23-27: capital recovery factor, special-casing a zero
rate. -/
def crf (r : ℚ) (n : ℕ) : ℚ :=
  if r = 0 then 1 / n
  else (r * (1 + r) ^ n) / ((1 + r) ^ n - 1)

/-- lcoe.py line 46: penalty distance equivalent to one substation. -/
def penalty_km : ℚ := SUBSTATION_COST / MV_COST_KM

/-- lcoe.py line 49: effective grid connection distance,
min(d_sub, d_lines + penalty_km). -/
def distGridOf (ds dl : ℚ) : ℚ :=
  min ds (dl + penalty_km)

/-- lcoe.py line 53: diversity-factored peak, projected_peak times 0.6. -/
def peak06 (o : DemandOut) : ℚ :=
  o.projected_peak * (6/10)

/-- lcoe.py line 57: terrain factor 1.3 without road access; an absent
main_road_access column makes get return scalar 1, never equal to 0. -/
def terrainFactorOf (r : InputRow) : ℚ :=
  if r.main_road_access.getD 1 = 0 then 13/10 else 1

/-- lcoe.py lines 59-64: grid capital cost. -/
def capexGridOf (r : InputRow) (o : DemandOut) (ds dl : ℚ) : ℚ :=
  distGridOf ds dl * MV_COST_KM * terrainFactorOf r
    + (o.households : ℚ) * (5/100) * LV_COST_KM
    + (⌈peak06 o / 45⌉ : ℚ) * TRANSFORMER_COST
    + (o.households : ℚ) * CONN_GRID

/-- lcoe.py lines 67-71: grid LCOE. -/
def lcoeGridOf (r : InputRow) (o : DemandOut) (ds dl : ℚ) : ℚ :=
  (capexGridOf r o ds dl * crf DISCOUNT_RATE 40
     + capexGridOf r o ds dl * (2/100)
     + (o.projected_demand / (1 - GRID_LOSS)) * GRID_PRICE)
    / o.projected_demand

/-- lcoe.py line 75. -/
def dailyLoadOf (o : DemandOut) : ℚ := o.projected_demand / 365

/-- lcoe.py line 76: PV sizing with 0.85 derate and 1.2 oversize. -/
def pvKwOf (o : DemandOut) : ℚ :=
  dailyLoadOf o / (CF_SOLAR * 8760 * (85/100)) * (12/10)

/-- lcoe.py line 77: battery sizing at 0.8 depth of discharge. -/
def battKwhOf (o : DemandOut) : ℚ := dailyLoadOf o / (8/10)

/-- lcoe.py lines 80-83: battery replacements at years 7 and 14 discounted
to present value. -/
def battPvOf (o : DemandOut) : ℚ :=
  battKwhOf o * BATT_COST / (1 + DISCOUNT_RATE) ^ 7
    + battKwhOf o * BATT_COST / (1 + DISCOUNT_RATE) ^ 14

/-- lcoe.py lines 86-96: mini-grid capital cost (the inverter term uses the
diversity-factored peak from line 53). -/
def capexMgOf (o : DemandOut) : ℚ :=
  pvKwOf o * PV_COST
    + battKwhOf o * BATT_COST
    + battPvOf o
    + peak06 o * (5/4) * INV_COST
    + (o.households : ℚ) * CONN_MG
    + (o.households : ℚ) * (1/10) * LV_COST_KM

/-- lcoe.py lines 98-101: mini-grid LCOE. -/
def lcoeMgOf (o : DemandOut) : ℚ :=
  (capexMgOf o * crf DISCOUNT_RATE 20 + capexMgOf o * (3/100))
    / o.projected_demand

/-- Formalisation of the spec sentence for the mini-grid capital cost,
which names the design peak as projected_peak itself (no 0.6 diversity
factor on the inverter term).  Kept separate from capexMgOf, which is the
code formula, so the two can be compared. -/
def capexMgSpec (o : DemandOut) : ℚ :=
  pvKwOf o * PV_COST
    + battKwhOf o * BATT_COST
    + battPvOf o
    + o.projected_peak * (5/4) * INV_COST
    + (o.households : ℚ) * CONN_MG
    + (o.households : ℚ) * (1/10) * LV_COST_KM

/-- lcoe.py line 106: SHS capital cost. -/
def capexShsOf (o : DemandOut) : ℚ :=
  SHS_COST o.tier * (o.households : ℚ)

/-- lcoe.py lines 108-109: energy delivered, capped per household. -/
def energyDeliveredOf (o : DemandOut) : ℚ :=
  min (o.projected_demand / (o.households : ℚ)) (SHS_CAP o.tier)
    * (o.households : ℚ)

/-- lcoe.py lines 111-114: SHS LCOE before the eligibility overwrite. -/
def lcoeShsRawOf (o : DemandOut) : ℚ :=
  (capexShsOf o * crf DISCOUNT_RATE 5 + capexShsOf o * (5/100))
    / energyDeliveredOf o

/-- lcoe.py line 117: any productive or public demand. -/
def hasProductiveOf (o : DemandOut) : Prop :=
  0 < o.dem_comm ∨ 0 < o.dem_agri ∨ 0 < o.dem_pub

instance (o : DemandOut) : Decidable (hasProductiveOf o) := by
  unfold hasProductiveOf
  infer_instance

/-- lcoe.py lines 116-119: sentinel overwrite for ineligible settlements. -/
def lcoeShsOf (o : DemandOut) : ℚ :=
  if MAX_TIER_SHS < o.tier ∨ hasProductiveOf o then 9999/10
  else lcoeShsRawOf o

/-- The three technology labels of lcoe.py lines 126-130. -/
inductive Tech where
  | Grid
  | MiniGrid
  | SHS
deriving DecidableEq, Repr

/-- lcoe.py line 124: idxmin over the columns in order
(lcoe_grid, lcoe_mg, lcoe_shs); the first column attaining the row minimum
wins. -/
def winnerOf (g m s : ℚ) : Tech :=
  if g ≤ m ∧ g ≤ s then Tech.Grid
  else if m ≤ s then Tech.MiniGrid
  else Tech.SHS

/-- The columns written by run_lcoe_model (plus the capital costs and the
effective distance, which the code keeps in local arrays). -/
structure LcoeOut where
  dist_grid : ℚ
  capex_grid : ℚ
  capex_mg : ℚ
  capex_shs : ℚ
  energy_delivered : ℚ
  lcoe_grid : ℚ
  lcoe_mg : ℚ
  lcoe_shs : ℚ
  min_lcoe : ℚ
  optimal_tech : Tech
  investment : ℚ
deriving Repr

/-- The pure part of run_lcoe_model, given the successfully fetched
substation and line distances. -/
def lcoeCore (r : InputRow) (o : DemandOut) (ds dl : ℚ) : LcoeOut :=
  { dist_grid := distGridOf ds dl
    capex_grid := capexGridOf r o ds dl
    capex_mg := capexMgOf o
    capex_shs := capexShsOf o
    energy_delivered := energyDeliveredOf o
    lcoe_grid := lcoeGridOf r o ds dl
    lcoe_mg := lcoeMgOf o
    lcoe_shs := lcoeShsOf o
    min_lcoe := min (lcoeGridOf r o ds dl) (min (lcoeMgOf o) (lcoeShsOf o))
    optimal_tech := winnerOf (lcoeGridOf r o ds dl) (lcoeMgOf o) (lcoeShsOf o)
    investment :=
      if winnerOf (lcoeGridOf r o ds dl) (lcoeMgOf o) (lcoeShsOf o) = Tech.Grid then
        capexGridOf r o ds dl
      else if winnerOf (lcoeGridOf r o ds dl) (lcoeMgOf o) (lcoeShsOf o) = Tech.MiniGrid then
        capexMgOf o
      else capexShsOf o }

/-- lcoe.py run_lcoe_model on one row.  The substation and line distance
columns go through DataFrame.get with scalar default 999 and then
fillna(999) (lines 42-43), so an absent column raises, substation first. -/
def run_lcoe_model (r : InputRow) (o : DemandOut) : Except String LcoeOut :=
  match getFillna r.dist_to_substations 999,
        getFillna r.dist_to_existing_transmission_lines 999 with
  | Except.ok ds, Except.ok dl => Except.ok (lcoeCore r o ds dl)
  | Except.error e, _ => Except.error e
  | Except.ok _, Except.error e => Except.error e

-- ---------- validity of an input row ----------

/-- Input-validation contract (spec section 7): population and the count
and distance attributes that feed divisions are non-negative where
present.  Expressed through getD so that every conjunct is decidable. -/
def ValidRow (r : InputRow) : Prop :=
  0 ≤ r.population ∧
  0 ≤ r.num_buildings.getD 0 ∧
  0 ≤ (r.dist_nearest_hub_km.getD (some 0)).getD 0 ∧
  0 ≤ (r.num_health_facilities.getD (some 0)).getD 0 ∧
  0 ≤ (r.num_education_facilities.getD (some 0)).getD 0

instance (r : InputRow) : Decidable (ValidRow r) := by
  unfold ValidRow
  infer_instance

-- ---------- annuity present-value factor (for the crf lemmas) ----------

/-- Present value of an n-year annuity of 1 at rate r; the reciprocal of
the capital recovery factor. -/
def annuity (r : ℚ) (n : ℕ) : ℚ :=
  ∑ k ∈ Finset.range n, (1 / (1 + r)) ^ (k + 1)

-- ---------- concrete rows used by witnesses and counterexamples ----------

/-- Rural settlement of population 1000, latitude 7, away from water,
wealth proxy -0.5, no nightlight, 25 km from a road, 50 km from a
substation, 10 km from a line; every optional column present. -/
def rowC : InputRow :=
  { population := 1000
    lat := 7
    num_buildings := some 0
    mean_rwi := some (-(1/2))
    has_nightlight := none
    dist_main_road_km := some 25
    dist_nearest_hub_km := some (some 10)
    dist_lake_river_km := some 5
    num_health_facilities := some (some 0)
    num_education_facilities := some (some 0)
    dist_to_substations := some (some 50)
    dist_to_existing_transmission_lines := some (some 10)
    main_road_access := none }

/-- Same settlement but with one building, so commercial demand fires. -/
def rowD : InputRow :=
  { rowC with num_buildings := some 1 }

/-- A table without the num_health_facilities column. -/
def rowMissingHealth : InputRow :=
  { rowC with num_health_facilities := none }

/-- A table without the dist_to_substations column. -/
def rowMissingSub : InputRow :=
  { rowC with dist_to_substations := none }

/-- The public demand value computed on rowC (both facility counts 0). -/
def dpC : ℚ := 0 * LOADS_health + 0 * LOADS_education

/-- Demand output on rowC. -/
def outC : DemandOut := demandCore rowC dpC

/-- Demand output on rowD. -/
def outD : DemandOut := demandCore rowD dpC

/-- Cost output on rowC. -/
def lcoeC : LcoeOut := lcoeCore rowC outC 50 10

/-- Cost output on rowD. -/
def lcoeD : LcoeOut := lcoeCore rowD outD 50 10

-- ---------- helper lemmas: tier ----------

theorem tierBase_mem (q : ℚ) : tierBase q = 1 ∨ tierBase q = 2 ∨ tierBase q = 3 := by
  unfold tierBase
  split_ifs <;> simp

theorem nightlightAdjust_mem (r : InputRow) (t : ℕ)
    (h : t = 1 ∨ t = 2 ∨ t = 3) :
    nightlightAdjust r t = 1 ∨ nightlightAdjust r t = 2 ∨ nightlightAdjust r t = 3 := by
  unfold nightlightAdjust
  rcases r.has_nightlight with _ | nl
  · exact h
  · dsimp only
    split_ifs <;> simp [h]

theorem roadCapAdjust_eq (r : InputRow) (t : ℕ) (h : t ≤ 3) :
    roadCapAdjust r t = t := by
  unfold roadCapAdjust
  rcases r.dist_main_road_km with _ | d
  · rfl
  · dsimp only
    rw [if_neg]
    rintro ⟨_, h3⟩
    omega

theorem tier_mem (r : InputRow) : tierOf r = 1 ∨ tierOf r = 2 ∨ tierOf r = 3 := by
  unfold tierOf
  have h1 := tierBase_mem (r.mean_rwi.getD 0)
  have h2 := nightlightAdjust_mem r _ h1
  have h3 : nightlightAdjust r (tierBase (r.mean_rwi.getD 0)) ≤ 3 := by omega
  rw [roadCapAdjust_eq r _ h3]
  exact h2

theorem kwh_ge (r : InputRow) : 35 ≤ TIER_KWH (tierOf r) := by
  rcases tier_mem r with h | h | h <;> rw [h] <;> norm_num [TIER_KWH]

theorem kwh_pos (r : InputRow) : 0 < TIER_KWH (tierOf r) := by
  have := kwh_ge r
  linarith

theorem lf_ge (r : InputRow) : 9/50 ≤ TIER_LF (tierOf r) := by
  rcases tier_mem r with h | h | h <;> rw [h] <;> norm_num [TIER_LF]

theorem lf_pos (r : InputRow) : 0 < TIER_LF (tierOf r) := by
  have := lf_ge r
  linarith

theorem uptake_bounds (r : InputRow) :
    17/20 ≤ uptakeOf r ∧ uptakeOf r ≤ 1 := by
  unfold uptakeOf TARGET_UPTAKE_2040
  split_ifs <;> norm_num

-- ---------- helper lemmas: households ----------

theorem one_le_households (r : InputRow) : 1 ≤ householdsOf r := by
  unfold householdsOf
  omega

theorem one_le_householdsQ (r : InputRow) : (1 : ℚ) ≤ (householdsOf r : ℚ) := by
  exact_mod_cast one_le_households r

theorem householdsQ_pos (r : InputRow) : (0 : ℚ) < (householdsOf r : ℚ) := by
  have := one_le_householdsQ r
  linarith

-- ---------- helper lemmas: demand components ----------

theorem gravity_ge_one (r : InputRow) : 1 ≤ gravityOf r := by
  unfold gravityOf
  exact le_min (le_max_right _ 1) (by norm_num)

theorem gravity_nonneg (r : InputRow) : 0 ≤ gravityOf r := by
  have := gravity_ge_one r
  linarith

theorem bcount_nonneg (r : InputRow) (hv : ValidRow r) : 0 ≤ bcountOf r := by
  unfold bcountOf
  rcases hb : r.num_buildings with _ | b
  · simp only [Option.getD_none]
    exact (householdsQ_pos r).le
  · have := hv.2.1
    rw [hb] at this
    simpa using this

theorem base_sme_pos (r : InputRow) : 0 < base_smeOf r := by
  unfold base_smeOf
  split_ifs <;> norm_num

theorem sme_nonneg (r : InputRow) (hv : ValidRow r) : 0 ≤ smeOf r := by
  unfold smeOf
  exact mul_nonneg (div_nonneg (bcount_nonneg r hv) (base_sme_pos r).le)
    (gravity_nonneg r)

theorem fishAdd_nonneg (r : InputRow) : 0 ≤ fishAddOf r := by
  unfold fishAddOf
  rcases r.dist_lake_river_km with _ | dlr
  · exact le_refl 0
  · dsimp only
    split_ifs with hc
    · have hq : (0:ℚ) ≤ (householdsOf r : ℚ) / 100 :=
        div_nonneg (householdsQ_pos r).le (by norm_num)
      have := Int.ceil_nonneg hq
      have h : (0:ℚ) ≤ (⌈(householdsOf r : ℚ) / 100⌉ : ℚ) := by exact_mod_cast this
      exact mul_nonneg h (by norm_num [LOADS_freezer])
    · exact le_refl 0

theorem dem_comm_nonneg (r : InputRow) (hv : ValidRow r) : 0 ≤ dem_commOf r := by
  unfold dem_commOf
  have h1 : (0:ℚ) ≤ (⌈smeOf r⌉ : ℚ) * LOADS_sme := by
    have := Int.ceil_nonneg (sme_nonneg r hv)
    have h : (0:ℚ) ≤ (⌈smeOf r⌉ : ℚ) := by exact_mod_cast this
    exact mul_nonneg h (by norm_num [LOADS_sme])
  have h2 := fishAdd_nonneg r
  linarith

theorem dem_agri_nonneg (r : InputRow) : 0 ≤ estimate_agri_loads r := by
  unfold estimate_agri_loads
  have hm : ∀ q : ℚ, (0:ℚ) ≤ ((max 1 (pyInt q) : ℤ) : ℚ) := by
    intro q
    have : (0:ℤ) ≤ max 1 (pyInt q) := by
      have := le_max_left 1 (pyInt q)
      omega
    exact_mod_cast this
  have h1 : (0:ℚ) ≤ (if is_urbanOf r = false ∧ 500 < r.population then
      ((max 1 (pyInt (r.population / 1500)) : ℤ) : ℚ) * LOADS_mill else 0) := by
    split_ifs
    · exact mul_nonneg (hm _) (by norm_num [LOADS_mill])
    · exact le_refl 0
  have h2 : (0:ℚ) ≤ (if r.dist_lake_river_km.getD 99 < 3 ∧ 300 < r.population then
      ((max 1 (pyInt (r.population / 800)) : ℤ) : ℚ) * LOADS_irrigation else 0) := by
    split_ifs
    · exact mul_nonneg (hm _) (by norm_num [LOADS_irrigation])
    · exact le_refl 0
  have h3 : (0:ℚ) ≤ (if 8 < r.lat ∧ is_urbanOf r = false ∧ 400 < r.population then
      ((max 1 (pyInt (r.population / 2000)) : ℤ) : ℚ) * LOADS_dryer else 0) := by
    split_ifs
    · exact mul_nonneg (hm _) (by norm_num [LOADS_dryer])
    · exact le_refl 0
  linarith

-- ---------- helper lemmas: inversion of the fallible steps ----------

theorem getFillna_ok_nonneg (c : OptCell) (d v : ℚ)
    (hc : 0 ≤ (c.getD (some 0)).getD 0) (hd : 0 ≤ d)
    (h : getFillna c d = Except.ok v) : 0 ≤ v := by
  rcases c with _ | c
  · exact absurd h (by simp [getFillna])
  · rcases c with _ | x
    · simp only [getFillna] at h
      cases h
      exact hd
    · simp only [getFillna] at h
      cases h
      simpa using hc

theorem run_demand_ok (r : InputRow) (o : DemandOut)
    (h : run_demand_model r = Except.ok o) :
    ∃ dp, pubDemandOf r = Except.ok dp ∧ o = demandCore r dp := by
  unfold run_demand_model at h
  rcases he : pubDemandOf r with e | dp
  · rw [he] at h
    cases h
  · rw [he] at h
    cases h
    exact ⟨dp, rfl, rfl⟩

theorem pub_ok_nonneg (r : InputRow) (dp : ℚ) (hv : ValidRow r)
    (h : pubDemandOf r = Except.ok dp) : 0 ≤ dp := by
  unfold pubDemandOf at h
  rcases hh : getFillna r.num_health_facilities 0 with e | hval
  · rw [hh] at h
    cases h
  · rcases he : getFillna r.num_education_facilities 0 with e | eval
    · rw [hh, he] at h
      cases h
    · rw [hh, he] at h
      cases h
      have h1 : 0 ≤ hval := getFillna_ok_nonneg _ _ _ hv.2.2.2.1 le_rfl hh
      have h2 : 0 ≤ eval := getFillna_ok_nonneg _ _ _ hv.2.2.2.2 le_rfl he
      have : (0:ℚ) ≤ LOADS_health := by norm_num [LOADS_health]
      have : (0:ℚ) ≤ LOADS_education := by norm_num [LOADS_education]
      nlinarith [mul_nonneg h1 (show (0:ℚ) ≤ LOADS_health by norm_num [LOADS_health]),
        mul_nonneg h2 (show (0:ℚ) ≤ LOADS_education by norm_num [LOADS_education])]

theorem run_lcoe_ok (r : InputRow) (o : DemandOut) (l : LcoeOut)
    (h : run_lcoe_model r o = Except.ok l) :
    ∃ ds dl, getFillna r.dist_to_substations 999 = Except.ok ds ∧
      getFillna r.dist_to_existing_transmission_lines 999 = Except.ok dl ∧
      l = lcoeCore r o ds dl := by
  unfold run_lcoe_model at h
  rcases hs : getFillna r.dist_to_substations 999 with e | ds
  · rw [hs] at h
    cases h
  · rcases hl : getFillna r.dist_to_existing_transmission_lines 999 with e | dl
    · rw [hs, hl] at h
      cases h
    · rw [hs, hl] at h
      cases h
      exact ⟨ds, dl, rfl, rfl, rfl⟩

-- ---------- helper lemmas: size of the projected demand ----------

theorem growthQ_ge_one : (1:ℚ) ≤ growthQ := by
  unfold growthQ POP_GROWTH WEALTH_GROWTH PLANNING_HORIZON
  norm_num

theorem growthQ_pos : (0:ℚ) < growthQ := by
  have := growthQ_ge_one
  linarith

theorem dem_res_lb (r : InputRow) :
    119/4 * (householdsOf r : ℚ) ≤ dem_resOf r := by
  unfold dem_resOf
  have hH := householdsQ_pos r
  have hk := kwh_ge r
  have hu := (uptake_bounds r).1
  nlinarith [mul_le_mul hk hu (by norm_num) (by linarith),
    mul_le_mul_of_nonneg_left
      (mul_le_mul hk hu (by norm_num) (by linarith : (0:ℚ) ≤ TIER_KWH (tierOf r)))
      hH.le]

theorem dem_res_nonneg (r : InputRow) : 0 ≤ dem_resOf r := by
  have h1 := dem_res_lb r
  have h2 := householdsQ_pos r
  nlinarith

theorem total_yr0_lb (r : InputRow) (dp : ℚ) (hv : ValidRow r) (hdp : 0 ≤ dp) :
    119/4 * (householdsOf r : ℚ) ≤ total_yr0Of r dp := by
  unfold total_yr0Of
  have h1 := dem_res_lb r
  have h2 := dem_comm_nonneg r hv
  have h3 := dem_agri_nonneg r
  linarith

theorem projected_demand_lb (r : InputRow) (dp : ℚ) (hv : ValidRow r) (hdp : 0 ≤ dp) :
    119/4 * (householdsOf r : ℚ) ≤ projected_demandOf r dp := by
  unfold projected_demandOf
  have h1 := total_yr0_lb r dp hv hdp
  have h2 := growthQ_ge_one
  have hH := householdsQ_pos r
  nlinarith

theorem projected_demand_pos (r : InputRow) (dp : ℚ) (hv : ValidRow r) (hdp : 0 ≤ dp) :
    0 < projected_demandOf r dp := by
  have h1 := projected_demand_lb r dp hv hdp
  have hH := householdsQ_pos r
  nlinarith

theorem design_total_nonneg (r : InputRow) (dp : ℚ) (hv : ValidRow r) (hdp : 0 ≤ dp) :
    0 ≤ design_totalOf r dp := by
  unfold design_totalOf design_resOf
  have h1 := dem_comm_nonneg r hv
  have h2 := dem_agri_nonneg r
  have h3 := mul_nonneg (householdsQ_pos r).le (kwh_pos r).le
  have h4 := growthQ_pos
  nlinarith

theorem design_total_ub (r : InputRow) (dp : ℚ) (hv : ValidRow r) (hdp : 0 ≤ dp) :
    design_totalOf r dp ≤ 20/17 * projected_demandOf r dp := by
  unfold design_totalOf projected_demandOf total_yr0Of design_resOf
  have hu := uptake_bounds r
  have hHk : (0:ℚ) ≤ (householdsOf r : ℚ) * TIER_KWH (tierOf r) :=
    mul_nonneg (householdsQ_pos r).le (kwh_pos r).le
  have hres : dem_resOf r = (householdsOf r : ℚ) * TIER_KWH (tierOf r) * uptakeOf r := rfl
  have hdesign : (householdsOf r : ℚ) * TIER_KWH (tierOf r) ≤ 20/17 * dem_resOf r := by
    rw [hres]
    nlinarith [mul_le_mul_of_nonneg_left hu.1 hHk]
  have h1 := dem_comm_nonneg r hv
  have h2 := dem_agri_nonneg r
  have h3 := growthQ_ge_one
  have h4 := growthQ_pos
  nlinarith [mul_le_mul_of_nonneg_right
    (show (householdsOf r : ℚ) * TIER_KWH (tierOf r) + dem_commOf r +
        estimate_agri_loads r + dp ≤
        20/17 * (dem_resOf r + dem_commOf r + estimate_agri_loads r + dp) by linarith)
    h4.le]

theorem projected_peak_ub (r : InputRow) (dp : ℚ) (hv : ValidRow r) (hdp : 0 ≤ dp) :
    projected_peakOf r dp ≤ 25/33507 * projected_demandOf r dp := by
  unfold projected_peakOf
  have hdt := design_total_nonneg r dp hv hdp
  have hub := design_total_ub r dp hv hdp
  have hlf := lf_ge r
  have hlfp := lf_pos r
  have step1 : design_totalOf r dp / 8760 / TIER_LF (tierOf r) =
      design_totalOf r dp / (8760 * TIER_LF (tierOf r)) := by
    rw [div_div]
  rw [step1]
  have step2 : design_totalOf r dp / (8760 * TIER_LF (tierOf r)) ≤
      design_totalOf r dp / (8760 * (9/50)) := by
    apply div_le_div_of_nonneg_left hdt (by norm_num)
    nlinarith
  calc design_totalOf r dp / (8760 * TIER_LF (tierOf r))
      ≤ design_totalOf r dp / (8760 * (9/50)) := step2
    _ = design_totalOf r dp * (5/7884) := by ring
    _ ≤ (20/17 * projected_demandOf r dp) * (5/7884) :=
        mul_le_mul_of_nonneg_right hub (by norm_num)
    _ = 25/33507 * projected_demandOf r dp := by ring

theorem households_ub (r : InputRow) (dp : ℚ) (hv : ValidRow r) (hdp : 0 ≤ dp) :
    (householdsOf r : ℚ) ≤ 4/119 * projected_demandOf r dp := by
  have h := projected_demand_lb r dp hv hdp
  linarith

-- ---------- helper lemmas: crf and the annuity factor ----------

theorem annuity_pos (r : ℚ) (n : ℕ) (hr : 0 ≤ r) (hn : 0 < n) :
    0 < annuity r n := by
  unfold annuity
  apply Finset.sum_pos
  · intro k _
    apply pow_pos
    positivity
  · exact Finset.nonempty_range_iff.mpr hn.ne'

theorem annuity_zero_rate (n : ℕ) : annuity 0 n = n := by
  unfold annuity
  simp

theorem annuity_closed (r : ℚ) (hr : 0 < r) (n : ℕ) :
    annuity r n = ((1 + r) ^ n - 1) / (r * (1 + r) ^ n) := by
  unfold annuity
  have h1 : (1 + r) ≠ 0 := by positivity
  induction n with
  | zero => simp
  | succ n ih =>
    rw [Finset.sum_range_succ, ih]
    have h2 : (1 + r) ^ n ≠ 0 := pow_ne_zero _ h1
    field_simp
    ring

theorem annuity_strictAnti (n : ℕ) (hn : 0 < n) (r1 r2 : ℚ)
    (h0 : 0 ≤ r1) (h : r1 < r2) : annuity r2 n < annuity r1 n := by
  unfold annuity
  apply Finset.sum_lt_sum_of_nonempty (Finset.nonempty_range_iff.mpr hn.ne')
  intro k _
  have hb2 : (0:ℚ) < 1 + r2 := by linarith
  have hb1 : (0:ℚ) < 1 + r1 := by linarith
  have hlt : 1 / (1 + r2) < 1 / (1 + r1) :=
    one_div_lt_one_div_of_lt hb1 (by linarith)
  have hge : (0:ℚ) ≤ 1 / (1 + r2) := by positivity
  exact pow_lt_pow_left₀ hlt hge (Nat.succ_ne_zero k)

theorem crf_mul_annuity (r : ℚ) (n : ℕ) (hr : 0 ≤ r) (hn : 0 < n) :
    crf r n * annuity r n = 1 := by
  rcases eq_or_lt_of_le hr with h0 | h0
  · rw [← h0]
    rw [annuity_zero_rate]
    unfold crf
    rw [if_pos rfl]
    have : (n:ℚ) ≠ 0 := Nat.cast_ne_zero.mpr hn.ne'
    field_simp
  · rw [annuity_closed r h0 n]
    unfold crf
    rw [if_neg h0.ne']
    have h1 : (0:ℚ) < 1 + r := by linarith
    have h2 : (1:ℚ) < (1 + r) ^ n := one_lt_pow₀ (by linarith) hn.ne'
    have h3 : (1 + r) ^ n - 1 ≠ 0 := by linarith
    have h4 : (1 + r) ^ n ≠ 0 := by positivity
    field_simp

theorem crf_eq_inv_annuity (r : ℚ) (n : ℕ) (hr : 0 ≤ r) (hn : 0 < n) :
    crf r n = (annuity r n)⁻¹ :=
  eq_inv_of_mul_eq_one_left (crf_mul_annuity r n hr hn)

theorem crf_pos (r : ℚ) (n : ℕ) (hr : 0 ≤ r) (hn : 0 < n) : 0 < crf r n := by
  rw [crf_eq_inv_annuity r n hr hn]
  exact inv_pos.mpr (annuity_pos r n hr hn)

theorem crf_strictMono (n : ℕ) (hn : 0 < n) (r1 r2 : ℚ)
    (h0 : 0 ≤ r1) (h : r1 < r2) : crf r1 n < crf r2 n := by
  rw [crf_eq_inv_annuity r1 n h0 hn, crf_eq_inv_annuity r2 n (by linarith) hn]
  have ha2 : 0 < annuity r2 n := annuity_pos r2 n (by linarith) hn
  have hlt := annuity_strictAnti n hn r1 r2 h0 h
  have := one_div_lt_one_div_of_lt ha2 hlt
  simpa [one_div] using this

-- ---------- helper lemmas: the mini-grid LCOE is far below the sentinel ----------

theorem capexMg_decomp (o : DemandOut) :
    capexMgOf o =
      1400/815337 * o.projected_demand
      + 75/73 * o.projected_demand
      + 75/73 * ((25/27:ℚ)^7 + (25/27)^14) * o.projected_demand
      + 135 * o.projected_peak
      + 650 * (o.households : ℚ) := by
  simp only [capexMgOf, battPvOf, pvKwOf, battKwhOf, dailyLoadOf, peak06,
    PV_COST, BATT_COST, INV_COST, CONN_MG, LV_COST_KM, CF_SOLAR, DISCOUNT_RATE]
  ring

theorem crf20_ub : crf DISCOUNT_RATE 20 ≤ 11/100 := by
  unfold crf DISCOUNT_RATE
  rw [if_neg (by norm_num)]
  norm_num

theorem crf20_pos : 0 < crf DISCOUNT_RATE 20 :=
  crf_pos _ _ (by norm_num [DISCOUNT_RATE]) (by norm_num)

theorem lcoeMg_le_sentinel (r : InputRow) (dp : ℚ) (hv : ValidRow r) (hdp : 0 ≤ dp) :
    lcoeMgOf (demandCore r dp) ≤ 9999/10 := by
  have hd_pos : 0 < projected_demandOf r dp := projected_demand_pos r dp hv hdp
  have hH := households_ub r dp hv hdp
  have hp := projected_peak_ub r dp hv hdp
  have hdecomp := capexMg_decomp (demandCore r dp)
  have hdc : (demandCore r dp).projected_demand = projected_demandOf r dp := rfl
  have hpk : (demandCore r dp).projected_peak = projected_peakOf r dp := rfl
  have hhh : ((demandCore r dp).households : ℚ) = (householdsOf r : ℚ) := rfl
  rw [hdc, hpk, hhh] at hdecomp
  have hcap : capexMgOf (demandCore r dp) ≤ 25 * projected_demandOf r dp := by
    rw [hdecomp]
    have hrho : ((25/27:ℚ)^7 + (25/27)^14) ≤ 1 := by norm_num
    have e1 : 75/73 * ((25/27:ℚ)^7 + (25/27)^14) * projected_demandOf r dp ≤
        75/73 * projected_demandOf r dp := by nlinarith
    linarith
  unfold lcoeMgOf
  rw [hdc, div_le_iff₀ hd_pos]
  have hcrf := crf20_ub
  have hcrfp := crf20_pos
  have hcap0 : 0 ≤ capexMgOf (demandCore r dp) * (crf DISCOUNT_RATE 20 + 3/100) →
      True := fun _ => trivial
  have step1 : capexMgOf (demandCore r dp) * crf DISCOUNT_RATE 20
      + capexMgOf (demandCore r dp) * (3/100) =
      capexMgOf (demandCore r dp) * (crf DISCOUNT_RATE 20 + 3/100) := by ring
  rw [step1]
  have step2 : capexMgOf (demandCore r dp) * (crf DISCOUNT_RATE 20 + 3/100) ≤
      25 * projected_demandOf r dp * (crf DISCOUNT_RATE 20 + 3/100) :=
    mul_le_mul_of_nonneg_right hcap (by linarith)
  have step3 : 25 * projected_demandOf r dp * (crf DISCOUNT_RATE 20 + 3/100) ≤
      25 * projected_demandOf r dp * (14/100) :=
    mul_le_mul_of_nonneg_left (by linarith) (by linarith)
  nlinarith

-- ---------- helper lemmas: the selection step ----------

theorem winner_spec (g m s : ℚ) :
    (winnerOf g m s = Tech.Grid ↔ g ≤ m ∧ g ≤ s) ∧
    (winnerOf g m s = Tech.MiniGrid ↔ ¬(g ≤ m ∧ g ≤ s) ∧ m ≤ s) ∧
    (winnerOf g m s = Tech.SHS ↔ ¬(g ≤ m ∧ g ≤ s) ∧ ¬(m ≤ s)) := by
  unfold winnerOf
  split_ifs with h1 h2 <;> simp_all

theorem winner_mem (g m s : ℚ) :
    winnerOf g m s = Tech.Grid ∨ winnerOf g m s = Tech.MiniGrid ∨
      winnerOf g m s = Tech.SHS := by
  unfold winnerOf
  split_ifs <;> simp

theorem winner_achieves_min (g m s : ℚ) :
    (winnerOf g m s = Tech.Grid → g = min g (min m s)) ∧
    (winnerOf g m s = Tech.MiniGrid → m = min g (min m s)) ∧
    (winnerOf g m s = Tech.SHS → s = min g (min m s)) := by
  obtain ⟨hg, hm, hs⟩ := winner_spec g m s
  refine ⟨fun h => ?_, fun h => ?_, fun h => ?_⟩
  · obtain ⟨h1, h2⟩ := hg.mp h
    rw [min_eq_left (le_min h1 h2)]
  · obtain ⟨h1, h2⟩ := hm.mp h
    rw [not_and_or] at h1
    have hmg : m ≤ g := by
      rcases h1 with h1 | h1 <;> push_neg at h1 <;> linarith
    rw [min_eq_left h2, min_eq_right hmg]
  · obtain ⟨h1, h2⟩ := hs.mp h
    rw [not_and_or] at h1
    push_neg at h2
    have hsg : s ≤ g := by
      rcases h1 with h1 | h1 <;> push_neg at h1 <;> linarith
    rw [min_eq_right h2.le, min_eq_right hsg]

theorem winner_ne_shs (g m s : ℚ) (h : m ≤ s) : winnerOf g m s ≠ Tech.SHS := by
  obtain ⟨_, _, hs⟩ := winner_spec g m s
  intro hw
  exact (hs.mp hw).2 h

-- ---------- helper lemmas: tier monotonicity pieces ----------

theorem tierBase_ge_one (q : ℚ) : 1 ≤ tierBase q := by
  rcases tierBase_mem q with h | h | h <;> omega

theorem tierBase_le_three (q : ℚ) : tierBase q ≤ 3 := by
  rcases tierBase_mem q with h | h | h <;> omega

theorem tierBase_mono (a b : ℚ) (h : a ≤ b) : tierBase a ≤ tierBase b := by
  unfold tierBase
  split_ifs <;> first | omega | linarith

theorem nightlightAdjust_mono (r : InputRow) (t t' : ℕ) (ht : t ≤ t') :
    nightlightAdjust r t ≤ nightlightAdjust r t' := by
  unfold nightlightAdjust
  rcases r.has_nightlight with _ | nl
  · exact ht
  · dsimp only
    split_ifs with h1 h2 h2
    · exact le_refl 2
    · have h3 : ¬ t' < 2 := fun hc => h2 ⟨h1.1, hc⟩
      omega
    · exact absurd ⟨h2.1, lt_of_le_of_lt ht h2.2⟩ h1
    · exact ht

theorem nightlightAdjust_le_three (r : InputRow) (t : ℕ) (h : t ≤ 3) :
    nightlightAdjust r t ≤ 3 := by
  unfold nightlightAdjust
  rcases r.has_nightlight with _ | nl
  · exact h
  · dsimp only
    split_ifs <;> omega

theorem projected_peak_pos (r : InputRow) (dp : ℚ) (hv : ValidRow r) (hdp : 0 ≤ dp) :
    0 < projected_peakOf r dp := by
  unfold projected_peakOf
  have hdt : 0 < design_totalOf r dp := by
    unfold design_totalOf design_resOf
    have h1 := dem_comm_nonneg r hv
    have h2 := dem_agri_nonneg r
    have h3 : (1:ℚ) * 35 ≤ (householdsOf r : ℚ) * TIER_KWH (tierOf r) :=
      mul_le_mul (one_le_householdsQ r) (kwh_ge r) (by norm_num) (householdsQ_pos r).le
    have h4 := growthQ_ge_one
    nlinarith
  exact div_pos (div_pos hdt (by norm_num)) (lf_pos r)

theorem shs_cap_pos (r : InputRow) : 0 < SHS_CAP (tierOf r) := by
  rcases tier_mem r with h | h | h <;> rw [h] <;> norm_num [SHS_CAP]

theorem promote_cap (r : InputRow) (v : ℚ) (t : ℕ) (h1 : 1 ≤ t) (h3 : t ≤ 3) :
    roadCapAdjust r (if 0 < v ∧ t < 2 then 2 else t) =
      (if 0 < v ∧ roadCapAdjust r t = 1 then 2 else roadCapAdjust r t) := by
  rw [roadCapAdjust_eq r t h3, roadCapAdjust_eq r _ (by split_ifs <;> omega)]
  by_cases hv0 : 0 < v
  · by_cases ht2 : t < 2
    · have ht1 : t = 1 := by omega
      rw [if_pos ⟨hv0, ht2⟩, if_pos ⟨hv0, ht1⟩]
    · rw [if_neg fun hc => ht2 hc.2, if_neg ?_]
      rintro ⟨_, h1⟩
      omega
  · rw [if_neg fun hc => hv0 hc.1, if_neg fun hc => hv0 hc.1]

-- ======================================================================
-- Claim theorems
-- ======================================================================

/-- Claim C1.  The claim states that when an optional attribute column is
entirely absent (num_health_facilities, num_education_facilities,
dist_to_substations, distance_to_existing_transmission_lines) the models
substitute the documented default and complete normally with no exception.
The code instead raises: DataFrame.get returns its scalar default for an
absent column and the subsequent Series.fillna attribute access fails.
This theorem evaluates both models at such inputs and shows they error. -/
theorem claim_C1_missing_column_raises :
    run_demand_model rowMissingHealth =
      Except.error "AttributeError: int object has no attribute fillna" ∧
    run_lcoe_model rowMissingSub outC =
      Except.error "AttributeError: int object has no attribute fillna" :=
  ⟨rfl, rfl⟩

/-- Claim C2, counterexample.  The claim computes the mini-grid inverter
term from projected_peak itself; the code uses the diversity-factored peak
(projected_peak times 0.6) from the grid section.  At the concrete
settlement rowC the two capital costs differ. -/
theorem claim_C2_counterexample :
    run_demand_model rowC = Except.ok outC ∧
    run_lcoe_model rowC outC = Except.ok lcoeC ∧
    lcoeC.capex_mg ≠ capexMgSpec outC := by
  refine ⟨rfl, rfl, ?_⟩
  have hdiff : capexMgSpec outC - capexMgOf outC = 90 * outC.projected_peak := by
    simp only [capexMgSpec, capexMgOf, peak06, INV_COST]
    ring
  have hvC : ValidRow rowC := by norm_num [ValidRow, rowC]
  have hdpC : (0:ℚ) ≤ dpC := by norm_num [dpC, LOADS_health, LOADS_education]
  have hp : 0 < outC.projected_peak := by
    show 0 < projected_peakOf rowC dpC
    exact projected_peak_pos rowC dpC hvC hdpC
  have hcm : lcoeC.capex_mg = capexMgOf outC := rfl
  rw [hcm]
  intro heq
  rw [heq] at hdiff
  nlinarith

/-- Claim C2, amended.  The mini-grid capital cost equals PV cost plus
battery cost plus discounted battery replacements plus the inverter term
computed from the diversity-factored design peak (projected_peak times 0.6,
then times the 1.25 oversize and the inverter unit cost) plus households
times the mini-grid connection fee plus households times 0.1 km of LV line
at the LV per-km cost. -/
theorem claim_C2_amended_capex_mg (r : InputRow) (o : DemandOut) (l : LcoeOut)
    (h : run_lcoe_model r o = Except.ok l) :
    l.capex_mg =
      pvKwOf o * PV_COST + battKwhOf o * BATT_COST + battPvOf o
        + (o.projected_peak * (6/10)) * (5/4) * INV_COST
        + (o.households : ℚ) * CONN_MG
        + (o.households : ℚ) * (1/10) * LV_COST_KM := by
  obtain ⟨ds, dl, _, _, rfl⟩ := run_lcoe_ok r o l h
  show capexMgOf o = _
  simp only [capexMgOf, peak06]

/-- Claim C2, amended theorem witness at a concrete settlement. -/
theorem claim_C2_amended_witness :
    run_lcoe_model rowC outC = Except.ok lcoeC ∧
    lcoeC.capex_mg =
      pvKwOf outC * PV_COST + battKwhOf outC * BATT_COST + battPvOf outC
        + (outC.projected_peak * (6/10)) * (5/4) * INV_COST
        + (outC.households : ℚ) * CONN_MG
        + (outC.households : ℚ) * (1/10) * LV_COST_KM :=
  ⟨rfl, claim_C2_amended_capex_mg rowC outC lcoeC rfl⟩

/-- Claim C3.  Any settlement with tier above the solar-kit ceiling or with
nonzero commercial, agricultural or public demand gets the 999.9 sentinel
as its solar-kit LCOE and is never selected as SHS: its mini-grid LCOE is
provably at most the sentinel, so the first-minimum selection never reaches
the solar-kit column. -/
theorem claim_C3_shs_sentinel_never_selected (r : InputRow) (o : DemandOut)
    (l : LcoeOut) (hv : ValidRow r)
    (hd : run_demand_model r = Except.ok o)
    (hl : run_lcoe_model r o = Except.ok l)
    (hin : MAX_TIER_SHS < o.tier ∨ 0 < o.dem_comm ∨ 0 < o.dem_agri ∨ 0 < o.dem_pub) :
    l.lcoe_shs = 9999/10 ∧ l.optimal_tech ≠ Tech.SHS := by
  obtain ⟨dp, hpub, rfl⟩ := run_demand_ok r o hd
  obtain ⟨ds, dl, _, _, rfl⟩ := run_lcoe_ok r _ l hl
  have hdp := pub_ok_nonneg r dp hv hpub
  have hmask : MAX_TIER_SHS < (demandCore r dp).tier ∨ hasProductiveOf (demandCore r dp) := by
    rcases hin with h | h | h | h
    · exact Or.inl h
    · exact Or.inr (Or.inl h)
    · exact Or.inr (Or.inr (Or.inl h))
    · exact Or.inr (Or.inr (Or.inr h))
  have hshs : lcoeShsOf (demandCore r dp) = 9999/10 := by
    unfold lcoeShsOf
    rw [if_pos hmask]
  refine ⟨hshs, ?_⟩
  show winnerOf _ (lcoeMgOf (demandCore r dp)) (lcoeShsOf (demandCore r dp)) ≠ Tech.SHS
  apply winner_ne_shs
  rw [hshs]
  exact lcoeMg_le_sentinel r dp hv hdp

/-- Claim C3 witness: rowC has agricultural demand 4500, so the sentinel
and the non-selection hold there. -/
theorem claim_C3_witness :
    ValidRow rowC ∧ run_demand_model rowC = Except.ok outC ∧
    run_lcoe_model rowC outC = Except.ok lcoeC ∧ 0 < outC.dem_agri ∧
    lcoeC.lcoe_shs = 9999/10 ∧ lcoeC.optimal_tech ≠ Tech.SHS := by
  have hv : ValidRow rowC := by norm_num [ValidRow, rowC]
  have hag : 0 < outC.dem_agri := by
    show 0 < estimate_agri_loads rowC
    norm_num [estimate_agri_loads, is_urbanOf, rowC, pyInt,
      LOADS_mill, LOADS_irrigation, LOADS_dryer]
  obtain ⟨h1, h2⟩ := claim_C3_shs_sentinel_never_selected rowC outC lcoeC hv rfl rfl
    (Or.inr (Or.inr (Or.inl hag)))
  exact ⟨hv, rfl, rfl, hag, h1, h2⟩

/-- Claim C4.  For every settlement the minimum-LCOE column equals the
minimum of the three technology LCOEs, the winning label is one of exactly
Grid, MiniGrid, SHS, the winner is the technology of minimum LCOE with
exact ties broken in the column order grid, mini-grid, solar kit, and the
investment equals the capital cost of the winning technology, never a
blend. -/
theorem claim_C4_selection (r : InputRow) (o : DemandOut) (l : LcoeOut)
    (h : run_lcoe_model r o = Except.ok l) :
    l.min_lcoe = min l.lcoe_grid (min l.lcoe_mg l.lcoe_shs) ∧
    (l.optimal_tech = Tech.Grid ∨ l.optimal_tech = Tech.MiniGrid ∨
      l.optimal_tech = Tech.SHS) ∧
    (l.optimal_tech = Tech.Grid ↔
      l.lcoe_grid ≤ l.lcoe_mg ∧ l.lcoe_grid ≤ l.lcoe_shs) ∧
    (l.optimal_tech = Tech.MiniGrid ↔
      ¬(l.lcoe_grid ≤ l.lcoe_mg ∧ l.lcoe_grid ≤ l.lcoe_shs) ∧
        l.lcoe_mg ≤ l.lcoe_shs) ∧
    (l.optimal_tech = Tech.Grid → l.lcoe_grid = l.min_lcoe) ∧
    (l.optimal_tech = Tech.MiniGrid → l.lcoe_mg = l.min_lcoe) ∧
    (l.optimal_tech = Tech.SHS → l.lcoe_shs = l.min_lcoe) ∧
    l.investment =
      (if l.optimal_tech = Tech.Grid then l.capex_grid
       else if l.optimal_tech = Tech.MiniGrid then l.capex_mg
       else l.capex_shs) := by
  obtain ⟨ds, dl, _, _, rfl⟩ := run_lcoe_ok r o l h
  obtain ⟨w1, w2, w3⟩ :=
    winner_spec (lcoeGridOf r o ds dl) (lcoeMgOf o) (lcoeShsOf o)
  obtain ⟨a1, a2, a3⟩ :=
    winner_achieves_min (lcoeGridOf r o ds dl) (lcoeMgOf o) (lcoeShsOf o)
  exact ⟨rfl, winner_mem _ _ _, w1, w2,
    fun hw => a1 hw, fun hw => a2 hw, fun hw => a3 hw, rfl⟩

/-- Claim C4 witness at a concrete settlement. -/
theorem claim_C4_witness :
    run_lcoe_model rowC outC = Except.ok lcoeC ∧
    lcoeC.min_lcoe = min lcoeC.lcoe_grid (min lcoeC.lcoe_mg lcoeC.lcoe_shs) ∧
    (lcoeC.optimal_tech = Tech.Grid ∨ lcoeC.optimal_tech = Tech.MiniGrid ∨
      lcoeC.optimal_tech = Tech.SHS) := by
  obtain ⟨h1, h2, _⟩ := claim_C4_selection rowC outC lcoeC rfl
  exact ⟨rfl, h1, h2⟩

/-- Claim C5.  For every valid settlement with non-negative population the
household count is the population divided by the household size, rounded
up and floored at 1 (hence at least 1), and the energy delivered by the
solar kit is strictly positive, so the solar-kit LCOE division is never
applied to a zero delivered energy. -/
theorem claim_C5_division_guards (r : InputRow) (o : DemandOut)
    (hv : ValidRow r) (_hpop : 0 ≤ r.population)
    (hd : run_demand_model r = Except.ok o) :
    1 ≤ o.households ∧
    o.households = (max 1 ⌈r.population / o.hh_size⌉).toNat ∧
    0 < energyDeliveredOf o := by
  obtain ⟨dp, hpub, rfl⟩ := run_demand_ok r o hd
  have hdp := pub_ok_nonneg r dp hv hpub
  refine ⟨one_le_households r, rfl, ?_⟩
  unfold energyDeliveredOf
  have e1 : (demandCore r dp).projected_demand = projected_demandOf r dp := rfl
  have e2 : ((demandCore r dp).households : ℚ) = (householdsOf r : ℚ) := rfl
  have e3 : (demandCore r dp).tier = tierOf r := rfl
  rw [e1, e2, e3]
  have hH := householdsQ_pos r
  have hdpos := projected_demand_pos r dp hv hdp
  apply mul_pos _ hH
  exact lt_min (div_pos hdpos hH) (shs_cap_pos r)

/-- Claim C5 witness at a concrete settlement. -/
theorem claim_C5_witness :
    ValidRow rowC ∧ (0:ℚ) ≤ rowC.population ∧
    run_demand_model rowC = Except.ok outC ∧
    1 ≤ outC.households ∧ 0 < energyDeliveredOf outC := by
  have hv : ValidRow rowC := by norm_num [ValidRow, rowC]
  have hp : (0:ℚ) ≤ rowC.population := by norm_num [rowC]
  obtain ⟨h1, _, h3⟩ := claim_C5_division_guards rowC outC hv hp rfl
  exact ⟨hv, hp, rfl, h1, h3⟩

/-- Claim C6.  Tier always lies in 1..3; with all other attributes fixed it
is monotone non-decreasing in the wealth proxy; nightlight presence only
promotes a tier-1 settlement to tier 2 and never changes any other tier;
and the road-distance column never changes the tier at all (the remoteness
rule can only cap a tier above 3 down to 3 and no tier ever exceeds 3), in
particular it never raises a tier. -/
theorem claim_C6_tier_invariants :
    (∀ r : InputRow, tierOf r = 1 ∨ tierOf r = 2 ∨ tierOf r = 3) ∧
    (∀ (r : InputRow) (a b : ℚ), a ≤ b →
      tierOf { r with mean_rwi := some a } ≤ tierOf { r with mean_rwi := some b }) ∧
    (∀ (r : InputRow) (v : ℚ),
      tierOf { r with has_nightlight := some v } =
        (if 0 < v ∧ tierOf { r with has_nightlight := none } = 1 then 2
         else tierOf { r with has_nightlight := none })) ∧
    (∀ (r : InputRow) (c1 c2 : Option ℚ),
      tierOf { r with dist_main_road_km := c1 } =
        tierOf { r with dist_main_road_km := c2 }) := by
  refine ⟨tier_mem, ?_, ?_, ?_⟩
  · intro r a b hab
    show roadCapAdjust r (nightlightAdjust r (tierBase a)) ≤
      roadCapAdjust r (nightlightAdjust r (tierBase b))
    rw [roadCapAdjust_eq r _ (nightlightAdjust_le_three r _ (tierBase_le_three a)),
      roadCapAdjust_eq r _ (nightlightAdjust_le_three r _ (tierBase_le_three b))]
    exact nightlightAdjust_mono r _ _ (tierBase_mono a b hab)
  · intro r v
    show roadCapAdjust r
        (if 0 < v ∧ tierBase (r.mean_rwi.getD 0) < 2 then 2
         else tierBase (r.mean_rwi.getD 0)) =
      (if 0 < v ∧ roadCapAdjust r (tierBase (r.mean_rwi.getD 0)) = 1 then 2
       else roadCapAdjust r (tierBase (r.mean_rwi.getD 0)))
    exact promote_cap r v _ (tierBase_ge_one _) (tierBase_le_three _)
  · intro r c1 c2
    show roadCapAdjust { r with dist_main_road_km := c1 }
        (nightlightAdjust r (tierBase (r.mean_rwi.getD 0))) =
      roadCapAdjust { r with dist_main_road_km := c2 }
        (nightlightAdjust r (tierBase (r.mean_rwi.getD 0)))
    have h3 : nightlightAdjust r (tierBase (r.mean_rwi.getD 0)) ≤ 3 :=
      nightlightAdjust_le_three r _ (tierBase_le_three _)
    rw [roadCapAdjust_eq _ _ h3, roadCapAdjust_eq _ _ h3]

/-- Claim C6 witness at concrete rows and wealth values. -/
theorem claim_C6_witness :
    (tierOf rowC = 1 ∨ tierOf rowC = 2 ∨ tierOf rowC = 3) ∧
    ((0:ℚ) ≤ 1 ∧
      tierOf { rowC with mean_rwi := some 0 } ≤
        tierOf { rowC with mean_rwi := some 1 }) ∧
    tierOf { rowC with has_nightlight := some 1 } =
      (if (0:ℚ) < 1 ∧ tierOf { rowC with has_nightlight := none } = 1 then 2
       else tierOf { rowC with has_nightlight := none }) ∧
    tierOf { rowC with dist_main_road_km := some 25 } =
      tierOf { rowC with dist_main_road_km := none } := by
  obtain ⟨h1, h2, h3, h4⟩ := claim_C6_tier_invariants
  exact ⟨h1 rowC, ⟨by norm_num, h2 rowC 0 1 (by norm_num)⟩, h3 rowC 1,
    h4 rowC (some 25) none⟩

/-- Claim C7.  The capital recovery factor satisfies crf 0 n = 1/n for
positive n, is strictly positive for every non-negative rate, and the
annualized capital cost of a positive capital is strictly increasing in
the discount rate over non-negative rates. -/
theorem claim_C7_crf_properties (n : ℕ) (hn : 0 < n) :
    crf 0 n = 1 / n ∧
    (∀ r : ℚ, 0 ≤ r → 0 < crf r n) ∧
    (∀ capital r1 r2 : ℚ, 0 < capital → 0 ≤ r1 → r1 < r2 →
      capital * crf r1 n < capital * crf r2 n) := by
  refine ⟨?_, fun r hr => crf_pos r n hr hn, fun c r1 r2 hc h0 h =>
    mul_lt_mul_of_pos_left (crf_strictMono n hn r1 r2 h0 h) hc⟩
  unfold crf
  rw [if_pos rfl]

/-- Claim C7 witness: the three properties instantiated at n = 2, rate 1,
capital 1. -/
theorem claim_C7_witness :
    crf 0 2 = 1 / ((2:ℕ) : ℚ) ∧ 0 < crf 1 2 ∧
    (1:ℚ) * crf 0 2 < 1 * crf 1 2 := by
  obtain ⟨h1, h2, h3⟩ := claim_C7_crf_properties 2 (by norm_num)
  exact ⟨h1, h2 1 (by norm_num), h3 1 0 1 (by norm_num) (le_refl 0) (by norm_num)⟩

/-- Claim C8.  The effective grid connection distance is the minimum of
the direct substation distance and the line distance plus the fixed
penalty SUBSTATION_COST / MV_COST_KM; the penalty is exactly 250/7 km
(about 35.7) and for substation distance 50 and line distance 10 the
effective distance is 320/7 (about 45.7). -/
theorem claim_C8_effective_distance (r : InputRow) (o : DemandOut) (l : LcoeOut)
    (ds dl : ℚ)
    (hs : r.dist_to_substations = some (some ds))
    (hl : r.dist_to_existing_transmission_lines = some (some dl))
    (h : run_lcoe_model r o = Except.ok l) :
    l.dist_grid = min ds (dl + SUBSTATION_COST / MV_COST_KM) ∧
    SUBSTATION_COST / MV_COST_KM = 250/7 ∧
    min (50:ℚ) (10 + SUBSTATION_COST / MV_COST_KM) = 320/7 := by
  obtain ⟨ds', dl', hs', hl', rfl⟩ := run_lcoe_ok r o l h
  rw [hs] at hs'
  rw [hl] at hl'
  simp only [getFillna] at hs' hl'
  cases hs'
  cases hl'
  refine ⟨rfl, by norm_num [SUBSTATION_COST, MV_COST_KM], ?_⟩
  rw [min_eq_right] <;> norm_num [SUBSTATION_COST, MV_COST_KM]

/-- Claim C8 witness: rowC has substation distance 50 and line distance
10, and its effective grid distance evaluates to 320/7. -/
theorem claim_C8_witness :
    rowC.dist_to_substations = some (some 50) ∧
    rowC.dist_to_existing_transmission_lines = some (some 10) ∧
    run_lcoe_model rowC outC = Except.ok lcoeC ∧
    lcoeC.dist_grid = min 50 (10 + SUBSTATION_COST / MV_COST_KM) ∧
    lcoeC.dist_grid = 320/7 := by
  obtain ⟨h1, h2, h3⟩ := claim_C8_effective_distance rowC outC lcoeC 50 10 rfl rfl rfl
  refine ⟨rfl, rfl, rfl, h1, ?_⟩
  rw [h1]
  exact h3

/-- Claim C9.  A rural settlement of population 1000 at latitude at most 8
with no lake or river within 3 km gets agricultural demand of exactly one
grain mill, 4500 kWh per year, with no irrigation or dryer contribution;
and if its wealth proxy is -0.5 with no nightlight and road distance 25 km
its tier is 1 (the remoteness rule never raises a tier). -/
theorem claim_C9_scenario (r : InputRow) (o : DemandOut)
    (hpop : r.population = 1000)
    (hurb : is_urbanOf r = false)
    (hlat : r.lat ≤ 8)
    (hlake : 3 ≤ r.dist_lake_river_km.getD 99)
    (hd : run_demand_model r = Except.ok o) :
    o.dem_agri = 4500 ∧
    (r.mean_rwi = some (-(1/2)) → r.has_nightlight.getD 0 ≤ 0 →
      r.dist_main_road_km = some 25 → o.tier = 1) := by
  obtain ⟨dp, _, rfl⟩ := run_demand_ok r o hd
  constructor
  · show estimate_agri_loads r = 4500
    unfold estimate_agri_loads
    rw [if_pos ⟨hurb, by rw [hpop]; norm_num⟩]
    rw [if_neg ?_, if_neg ?_]
    · rw [hpop]
      norm_num [pyInt, LOADS_mill]
    · rintro ⟨h8, _⟩
      linarith
    · rintro ⟨hc, _⟩
      linarith
  · intro hrwi hnl hroad
    show tierOf r = 1
    unfold tierOf
    have hbase : tierBase (r.mean_rwi.getD 0) = 1 := by
      rw [hrwi]
      norm_num [tierBase]
    have hnla : nightlightAdjust r 1 = 1 := by
      unfold nightlightAdjust
      rcases hx : r.has_nightlight with _ | nl
      · rfl
      · dsimp only
        rw [if_neg]
        rintro ⟨h1, _⟩
        rw [hx] at hnl
        simp only [Option.getD_some] at hnl
        linarith
    rw [hbase, hnla, roadCapAdjust_eq r 1 (by norm_num)]

/-- Claim C9 witness: rowC realises the scenario. -/
theorem claim_C9_witness :
    rowC.population = 1000 ∧ is_urbanOf rowC = false ∧ rowC.lat ≤ 8 ∧
    (3:ℚ) ≤ rowC.dist_lake_river_km.getD 99 ∧
    run_demand_model rowC = Except.ok outC ∧
    outC.dem_agri = 4500 ∧ outC.tier = 1 := by
  have hurb : is_urbanOf rowC = false := by norm_num [is_urbanOf, rowC]
  obtain ⟨h1, h2⟩ := claim_C9_scenario rowC outC rfl hurb
    (by norm_num [rowC]) (by norm_num [rowC]) rfl
  exact ⟨rfl, hurb, by norm_num [rowC], by norm_num [rowC], rfl, h1,
    h2 rfl (by norm_num [rowC]) rfl⟩

/-- Claim C10.  Whenever the building count is at least 1, or the
num_buildings column is absent so the household count (at least 1) is the
proxy, the commercial demand is at least one SME unit of 600 kWh per year,
so the settlement has nonzero productive demand and its solar-kit LCOE is
the 999.9 sentinel. -/
theorem claim_C10_sme_floor (r : InputRow) (o : DemandOut)
    (hb : r.num_buildings = none ∨ 1 ≤ r.num_buildings.getD 0)
    (hd : run_demand_model r = Except.ok o) :
    600 ≤ o.dem_comm ∧
    ∀ l : LcoeOut, run_lcoe_model r o = Except.ok l → l.lcoe_shs = 9999/10 := by
  obtain ⟨dp, _, rfl⟩ := run_demand_ok r o hd
  have hcomm : 600 ≤ dem_commOf r := by
    have hb1 : 1 ≤ bcountOf r := by
      unfold bcountOf
      rcases hx : r.num_buildings with _ | b
      · simp only [Option.getD_none]
        exact one_le_householdsQ r
      · rcases hb with h | h
        · rw [hx] at h
          cases h
        · rw [hx] at h
          simpa using h
    have hsme : 0 < smeOf r := by
      unfold smeOf
      apply mul_pos
      · exact div_pos (by linarith) (base_sme_pos r)
      · linarith [gravity_ge_one r]
    have hceil : (1:ℤ) ≤ ⌈smeOf r⌉ := Int.ceil_pos.mpr hsme
    have hceilQ : (1:ℚ) ≤ (⌈smeOf r⌉ : ℚ) := by exact_mod_cast hceil
    have hfish := fishAdd_nonneg r
    unfold dem_commOf
    have h600 : LOADS_sme = (600:ℚ) := rfl
    have : (600:ℚ) ≤ (⌈smeOf r⌉ : ℚ) * LOADS_sme := by
      rw [h600]
      nlinarith
    linarith
  refine ⟨hcomm, ?_⟩
  intro l hl
  obtain ⟨ds, dl, _, _, rfl⟩ := run_lcoe_ok r _ l hl
  show lcoeShsOf (demandCore r dp) = 9999/10
  unfold lcoeShsOf
  have hprod : hasProductiveOf (demandCore r dp) :=
    Or.inl (show (0:ℚ) < dem_commOf r by linarith)
  rw [if_pos (Or.inr hprod)]

/-- Claim C10 witness: rowD has one building and gets the sentinel. -/
theorem claim_C10_witness :
    (1:ℚ) ≤ rowD.num_buildings.getD 0 ∧
    run_demand_model rowD = Except.ok outD ∧
    600 ≤ outD.dem_comm ∧
    run_lcoe_model rowD outD = Except.ok lcoeD ∧
    lcoeD.lcoe_shs = 9999/10 := by
  have hb : (1:ℚ) ≤ rowD.num_buildings.getD 0 := by norm_num [rowD, rowC]
  obtain ⟨h1, h2⟩ := claim_C10_sme_floor rowD outD (Or.inr hb) rfl
  exact ⟨hb, rfl, h1, rfl, h2 lcoeD rfl⟩
